import Mathlib

/-!
Verification of the invoice-to-CSV converter (`invoice_to_csv.py`).

Python strings are modelled as `List Char` (`PyStr`).  Each `py...` helper
below embeds the Python string primitive actually used by the source, at the
argument shapes the source uses (e.g. `str.split` is only called with one- or
two-character separators, `str.replace` only with one-character patterns).
Line breaks are modelled as the newline character, which is the only line
terminator produced by the layout text extraction the source consumes.
Fallible Python operations (indexing, `list.pop`, `functools.reduce` on an
empty sequence) are modelled with `Option`/`Except`.
-/

set_option linter.unusedVariables false

abbrev PyStr := List Char

/-- Python whitespace predicate (ASCII), as used by `str.strip`. -/
def pyIsSpace (c : Char) : Bool :=
  c = ' ' || c = '\t' || c = '\n' || c = '\r' || c = Char.ofNat 11 || c = Char.ofNat 12

/-- Python `str.strip()`: drop whitespace from both ends. -/
def pyStrip (s : PyStr) : PyStr :=
  ((s.dropWhile pyIsSpace).reverse.dropWhile pyIsSpace).reverse

/-- Python `str.lower()` restricted to ASCII letters. -/
def pyLower (s : PyStr) : PyStr := s.map Char.toLower

/-- Python `str.capitalize()`: first character uppercased, the rest lowercased. -/
def pyCapitalize : PyStr → PyStr
  | [] => []
  | c :: t => Char.toUpper c :: pyLower t

/-- Python `str.replace(old, new)` for a one-character `old` (the only shape
the source uses: removing commas and dollar signs, turning slashes into
dashes). -/
def pyReplaceChar (o : Char) (new : PyStr) : PyStr → PyStr
  | [] => []
  | c :: t => if c = o then new ++ pyReplaceChar o new t else c :: pyReplaceChar o new t

/-- Prepend a character to the first piece of a split result. -/
def consHead (c : Char) : List PyStr → List PyStr
  | [] => [[c]]
  | x :: xs => (c :: x) :: xs

/-- Python `str.split(sep)` for a one-character separator: greedy
left-to-right cut, keeping empty pieces. -/
def pySplit1 (a : Char) : PyStr → List PyStr
  | [] => [[]]
  | c :: t => if c = a then [] :: pySplit1 a t else consHead c (pySplit1 a t)

/-- Python `str.split(sep)` for a two-character separator: greedy leftmost
non-overlapping cut, keeping empty pieces. -/
def pySplit2 (a b : Char) : PyStr → List PyStr
  | [] => [[]]
  | [c] => [[c]]
  | c :: d :: t =>
    if c = a ∧ d = b then [] :: pySplit2 a b t
    else consHead c (pySplit2 a b (d :: t))

/-- Python `str.splitlines()` with the newline character as line terminator:
split on newlines and drop the trailing empty piece produced by a final
newline; the empty string has no lines. -/
def pySplitlines (s : PyStr) : List PyStr :=
  if s = [] then []
  else if s.getLast? = some '\n' then (pySplit1 '\n' s).dropLast
  else pySplit1 '\n' s

/-- Auxiliary scanner for Python `str.find`: first index at or after `i`
where `pat` occurs, `-1` if none. -/
def pyFindAux (pat : PyStr) : PyStr → Nat → Int
  | hay, i =>
    if pat.isPrefixOf hay then (i : Int)
    else
      match hay with
      | [] => -1
      | _ :: t => pyFindAux pat t (i + 1)

/-- Python `hay.find(pat)`: lowest index of an occurrence, or `-1`. -/
def pyFind (hay pat : PyStr) : Int := pyFindAux pat hay 0

/-- Clamp a (possibly negative) Python slice index to an absolute position. -/
def pyIdx (len : Nat) (i : Int) : Nat :=
  if i < 0 then ((len : Int) + i).toNat else min i.toNat len

/-- Python slice `s[a:b]` with Python index semantics (negative indices count
from the end, out-of-range indices are clamped). -/
def pySlice (s : PyStr) (a b : Int) : PyStr :=
  (s.take (pyIdx s.length b)).drop (pyIdx s.length a)

/-- Python slice `s[:i]`. -/
def pySliceTo (s : PyStr) (i : Int) : PyStr := s.take (pyIdx s.length i)

/-- Python slice `s[i:]`. -/
def pySliceFrom (s : PyStr) (i : Int) : PyStr := s.drop (pyIdx s.length i)

/-- Python `list.pop(1)`: succeeds exactly on lists of length at least two,
returning the removed element (index 1) and the remaining list. -/
def pop1 {α : Type} : List α → Option (α × List α)
  | a :: b :: t => some (b, a :: t)
  | _ => none

/-- Python exceptions and the error taxonomy named by the specification.
The source only ever produces `indexError` (list indexing and `pop` out of
range) and `typeError` (`functools.reduce` over an empty sequence); the
spec-level `anchorNotFound` and `malformedItemBlock` are included so that
statements about them can be expressed. -/
inductive PyErr where
  | indexError
  | typeError
  | anchorNotFound
  | malformedItemBlock
deriving DecidableEq, Repr

/-- The one-character string of a comma. -/
def COMMA : PyStr := [',']

/-- The one-character string of a newline. -/
def NEWLINE : PyStr := ['\n']

/-- The one-character string of a dash. -/
def DASH : PyStr := ['-']

/-- The common-category table (source lines 9-16). -/
def CAT_LAPTOP : PyStr := "Laptop".data
def CAT_DESKTOP : PyStr := "Desktop".data
def CAT_ACCESS_POINT : PyStr := "Access Point".data
def CAT_SMARTPHONE : PyStr := "Smartphone".data
def CAT_ROUTER : PyStr := "Router".data
def CAT_SWITCH : PyStr := "Switch".data

def COMMON_CATEGORIES : List PyStr :=
  [CAT_LAPTOP, CAT_DESKTOP, CAT_ACCESS_POINT, CAT_SMARTPHONE, CAT_ROUTER, CAT_SWITCH]

/-- The test `name.lower().find(category.lower()) >= 0` from source line 189. -/
def catMatches (name cat : PyStr) : Bool :=
  decide (0 ≤ pyFind (pyLower name) (pyLower cat))

/-- Embedding of `check_for_common_categories` (source lines 180-191): scan
the category table in order, remembering the most recent match. -/
def check_for_common_categories (name : PyStr) : Option PyStr :=
  COMMON_CATEGORIES.foldl
    (fun found cat => if catMatches name cat then some cat else found) none

/-- Embedding of `get_category` (source lines 159-178).  The interactive
`input()` answer is modelled as the extra `external_answer` parameter; the
source declares the parameters in the order `(model_no, name, model)` and
matches its `name` parameter against the category table, capitalizing the
external answer when no known category matches.  `model_no` and `model` are
only printed. -/
def get_category (external_answer model_no name model : PyStr) : PyStr :=
  match check_for_common_categories name with
  | some c => c
  | none => pyCapitalize external_answer

/-- Embedding of the call site at source line 155: `parse_pdf` invokes
`get_category(model_no, model, name)`, so the extracted `model` string is the
argument that lands in `get_category`'s `name` parameter and the extracted
`name` string lands in its `model` parameter. -/
def parse_pdf_category (external_answer model_no model name : PyStr) : PyStr :=
  get_category external_answer model_no model name

/-- The START anchor of the billable-items block (source line 112). -/
def START_STRING : PyStr := "Billable  Products & Other Charges".data

/-- The END anchor of the billable-items block (source line 113). -/
def END_STRING : PyStr := "Total".data

/-- Embedding of source lines 114-117: locate and trim the item block by
anchor search, with no treatment of a failed (`-1`) search. -/
def parse_pdf_item (page_text : PyStr) : PyStr :=
  pyStrip (pySlice page_text
    (pyFind page_text START_STRING + (START_STRING.length : Int))
    (pyFind page_text END_STRING))

/-- Embedding of `get_next_item` (source line 211): text after the label,
stripped, cut at the first space and at the first newline. -/
def get_next_item (text word_before : PyStr) : PyStr :=
  (pySplit1 '\n'
    ((pySplit1 ' '
      (pyStrip (pySliceFrom text
        (pyFind text word_before + (word_before.length : Int))))).headD [])).headD []

/-- Embedding of the date rewrite of source lines 147-149: turn slashes into
dashes, then rebuild as `date[6:] + date[5] + date[:5]`.  The single-character
index `date[5]` raises on a too-short string, hence the `Option`. -/
def parse_pdf_date (date : PyStr) : Option PyStr :=
  let d := pyReplaceChar '/' DASH date
  match d.get? 5 with
  | none => none
  | some c => some (d.drop 6 ++ (c :: d.take 5))

/-- Embedding of the price normalization of source lines 134-136: remove
commas, remove dollar signs, strip surrounding whitespace. -/
def normalize_price (price : PyStr) : PyStr :=
  pyStrip (pyReplaceChar '$' [] (pyReplaceChar ',' [] price))

/-- The token for the serial-number cut (source line 122). -/
def SERIAL_WORD : PyStr := "Serial".data

/-- Source line 122: cut `info` at the first occurrence of `Serial`
(an absent occurrence gives `find = -1`, i.e. the slice `info[:-1]`). -/
def parse_pdf_info (info0 : PyStr) : PyStr :=
  pySliceTo info0 (pyFind info0 SERIAL_WORD)

/-- Source line 124: split on double spaces and drop empty segments. -/
def parse_pdf_segs (info : PyStr) : List PyStr :=
  (pySplit2 ' ' ' ' info).filter (fun x => decide (x ≠ []))

/-- Source lines 126-128: split each segment on line breaks and flatten.
(`functools.reduce` itself is total only on a non-empty list; emptiness is
checked at the use site.) -/
def parse_pdf_tokens (info : PyStr) : List PyStr :=
  ((parse_pdf_segs info).map pySplitlines).flatten

/-- The token list that `parse_pdf` flattens for a given item block: the
part after the first `": "`, cut at `Serial`, split and flattened.  Blocks
without a `": "` never reach the token stage. -/
def parse_pdf_tokens_of_item (item : PyStr) : List PyStr :=
  match pySplit2 ':' ' ' item with
  | _ :: info0 :: _ => parse_pdf_tokens (parse_pdf_info info0)
  | _ => []

/-- The structured fields extracted from one item block. -/
structure Fields where
  model_no : PyStr
  name : PyStr
  model : PyStr
  price : PyStr
  serial_nos : List PyStr
deriving DecidableEq, Repr

/-- Embedding of the field-extraction part of `parse_pdf` (source lines
118-143).  Failure points of the Python code are made explicit:
`item.split(": ")[1]` and `list.pop(1)` and `info_list[0]` raise
`IndexError`, and `functools.reduce` with no initializer raises `TypeError`
on an empty sequence. -/
def parse_pdf_fields (item : PyStr) : Except PyErr Fields :=
  match pySplit2 ':' ' ' item with
  | [] => .error .indexError
  | [_] => .error .indexError
  | model_no :: info0 :: _ =>
    let info := parse_pdf_info info0
    if (parse_pdf_segs info).isEmpty then .error .typeError
    else
      match pop1 (parse_pdf_tokens info) with
      | none => .error .indexError
      | some (_, l1) =>
        match pop1 l1 with
        | none => .error .indexError
        | some (priceRaw, l2) =>
          let price := normalize_price priceRaw
          match pop1 l2 with
          | none => .error .indexError
          | some (_, l3) =>
            match l3 with
            | [] => .error .indexError
            | t0 :: _ =>
              let model := (pySplit2 ',' ' ' t0).headD []
              let name := pyReplaceChar ',' [] (List.intercalate [' '] l3)
              let serial_nos :=
                (pySplit1 ',' ((pySplit2 ':' ' ' item).getLastD [])).map pyStrip
              .ok ⟨model_no, name, model, price, serial_nos⟩

/-- The asset record (source lines 18-45); the constant fields and the
derived audit date are filled in by `Asset.init` below. -/
structure Asset where
  model_no : PyStr
  name : PyStr
  model : PyStr
  price : PyStr
  serial_nos : List PyStr
  location : PyStr
  date : PyStr
  order_no : PyStr
  category : PyStr
  requestable : PyStr
  last_audit_date : PyStr
deriving DecidableEq, Repr

/-- Embedding of `Asset.__init__` (source lines 34-45). -/
def Asset.init (model_no name model price : PyStr) (serial_nos : List PyStr)
    (date order_no category : PyStr) : Asset :=
  { model_no := model_no, name := name, model := model, price := price,
    serial_nos := serial_nos, location := "Naples Office".data, date := date,
    order_no := order_no, category := category, requestable := "true".data,
    last_audit_date := date }

/-- One CSV line of `Asset.to_string` (source lines 54-57), without the
trailing newline: the eleven fields joined by commas, in the source's order. -/
def rowLine (a : Asset) (serial_no : PyStr) : PyStr :=
  a.name ++ COMMA ++ a.category ++ COMMA ++ a.location ++ COMMA ++
  a.date ++ COMMA ++ a.price ++ COMMA ++ a.model ++ COMMA ++
  a.model_no ++ COMMA ++ serial_no ++ COMMA ++ a.order_no ++ COMMA ++
  a.requestable ++ COMMA ++ a.last_audit_date

/-- Embedding of `Asset.to_string` (source lines 47-59): one line per serial
number, accumulated in order. -/
def Asset.to_string (a : Asset) : PyStr :=
  a.serial_nos.foldl (fun acc sn => acc ++ (rowLine a sn ++ NEWLINE)) []

/-- The ten scalar string fields of an asset followed by its serial numbers:
the strings whose comma- and newline-freedom the CSV contract is about. -/
def assetFields (a : Asset) : List PyStr :=
  [a.name, a.category, a.location, a.date, a.price, a.model, a.model_no,
   a.order_no, a.requestable, a.last_audit_date] ++ a.serial_nos

/-! Concrete inputs used by the claim theorems. -/

/-- A page text containing neither the START nor the END anchor. -/
def NO_ANCHOR_PAGE : PyStr := "0123456789abcdefghijklmnopqrstuvwxyzABCDEFGHIJKLMN".data

/-- The slice the locator produces on `NO_ANCHOR_PAGE`. -/
def GARBAGE_SLICE : PyStr := "xyzABCDEFGHIJKLM".data

/-- The item block of the specification's multi-serial extraction example. -/
def C2_BLOCK : PyStr :=
  "MN-100: 2  $500.00  $1,000.00  ModelX, Widget Pro Serial Numbers: SN1, SN2".data

/-- The fields the specification claims for `C2_BLOCK`. -/
def C2_CLAIMED : Fields :=
  { model_no := "MN-100".data, name := "Widget Pro".data, model := "ModelX".data,
    price := "500.00".data, serial_nos := ["SN1".data, "SN2".data] }

/-- The fields the source actually extracts from `C2_BLOCK`. -/
def C2_ACTUAL : Fields :=
  { model_no := "MN-100".data, name := "2".data, model := "2".data,
    price := "1000.00".data, serial_nos := ["SN1".data, "SN2".data] }

/-- An item block whose flattened token list has a single element. -/
def C4_ITEM : PyStr := "MN-1: 2 Serial Numbers: SN1".data

/-- An item name containing no common category. -/
def GIZMO : PyStr := "Gizmo".data

/-- An external category answer with mixed case. -/
def MACBOOK : PyStr := "MacBook Pro".data

/-- A model string containing no common category. -/
def MODELX : PyStr := "ModelX".data

/-- An item name containing the common category Laptop. -/
def LATITUDE : PyStr := "Dell Latitude Laptop".data

/-- An external category answer. -/
def GADGET : PyStr := "gadget".data

/-- A model number. -/
def MN1 : PyStr := "MN-1".data

/-- A price with surrounding whitespace but no comma and no dollar sign. -/
def PRICE_SPACED : PyStr := " 5.00 ".data

/-- The same price with the whitespace stripped. -/
def PRICE_CLEAN : PyStr := "5.00".data

/-- A name matching both the Router and the Switch category. -/
def MULTI_MATCH_NAME : PyStr := "router switch".data

/-- The tail of `MACBOOK` after its first character. -/
def MACBOOK_TAIL : PyStr := "acBook Pro".data

/-- The result of Python `str.capitalize` on `MACBOOK`. -/
def CAPITALIZED_MACBOOK : PyStr := "Macbook pro".data

/-- A source-format order date. -/
def DATE_US : PyStr := "03/14/2024".data

/-- The normalized form of `DATE_US`. -/
def DATE_ISO : PyStr := "2024-03-14".data

def MN100 : PyStr := "MN-100".data
def WIDGET_PRO : PyStr := "Widget Pro".data
def PRICE_500 : PyStr := "500.00".data
def SN1 : PyStr := "SN1".data
def SN2 : PyStr := "SN2".data
def ORDER_531363 : PyStr := "531363".data

/-- A concrete asset with comma-free and newline-free fields. -/
def W_ASSET : Asset :=
  Asset.init MN100 WIDGET_PRO MODELX PRICE_500 [SN1, SN2] DATE_ISO ORDER_531363 CAT_LAPTOP


/-! General lemmas about the Python string helpers. -/

theorem pySplit1_cons (a c : Char) (t : PyStr) :
    pySplit1 a (c :: t) = if c = a then [] :: pySplit1 a t else consHead c (pySplit1 a t) := rfl

theorem pySplit1_append {a : Char} {x : PyStr} (y : PyStr) (h : a ∉ x) :
    pySplit1 a (x ++ a :: y) = x :: pySplit1 a y := by
  induction x with
  | nil => simp [pySplit1]
  | cons c t ih =>
    have hca : ¬ (c = a) := fun e => h (by simp [e])
    have ht : a ∉ t := fun hm => h (List.mem_cons_of_mem c hm)
    rw [List.cons_append, pySplit1_cons, if_neg hca, ih ht]
    rfl

theorem pySplit1_of_not_mem {a : Char} {x : PyStr} (h : a ∉ x) :
    pySplit1 a x = [x] := by
  induction x with
  | nil => rfl
  | cons c t ih =>
    have hca : ¬ (c = a) := fun e => h (by simp [e])
    have ht : a ∉ t := fun hm => h (List.mem_cons_of_mem c hm)
    simp [pySplit1, if_neg hca, ih ht, consHead]

theorem pyReplaceChar_of_not_mem {o : Char} (new : PyStr) {s : PyStr} (h : o ∉ s) :
    pyReplaceChar o new s = s := by
  induction s with
  | nil => rfl
  | cons c t ih =>
    have hco : ¬ (c = o) := fun e => h (by simp [e])
    have ht : o ∉ t := fun hm => h (List.mem_cons_of_mem c hm)
    simp [pyReplaceChar, hco, ih ht]

theorem mem_of_mem_pyReplaceChar_empty {o x : Char} {s : PyStr}
    (h : x ∈ pyReplaceChar o [] s) : x ∈ s := by
  induction s with
  | nil => simp [pyReplaceChar] at h
  | cons c t ih =>
    by_cases hc : c = o
    · rw [show pyReplaceChar o [] (c :: t) = pyReplaceChar o [] t from by
        simp [pyReplaceChar, hc]] at h
      exact List.mem_cons_of_mem c (ih h)
    · rw [show pyReplaceChar o [] (c :: t) = c :: pyReplaceChar o [] t from by
        simp [pyReplaceChar, hc]] at h
      rcases List.mem_cons.mp h with h1 | h2
      · exact h1 ▸ List.mem_cons_self c t
      · exact List.mem_cons_of_mem c (ih h2)

theorem not_mem_pyReplaceChar_self (o : Char) (s : PyStr) :
    o ∉ pyReplaceChar o [] s := by
  induction s with
  | nil => simp [pyReplaceChar]
  | cons c t ih =>
    by_cases hc : c = o
    · simpa [pyReplaceChar, hc] using ih
    · have hoc : ¬ (o = c) := fun e => hc e.symm
      simp [pyReplaceChar, hc, hoc, ih]

theorem dropWhile_dropWhile (p : Char → Bool) (l : PyStr) :
    List.dropWhile p (List.dropWhile p l) = List.dropWhile p l := by
  induction l with
  | nil => rfl
  | cons c t ih =>
    by_cases h : p c
    · simp [List.dropWhile_cons, h, ih]
    · simp [List.dropWhile_cons, h]

theorem dropWhile_getLast?_of_ne_nil (p : Char → Bool) (l : PyStr)
    (h : List.dropWhile p l ≠ []) :
    (List.dropWhile p l).getLast? = l.getLast? := by
  induction l with
  | nil => simp [List.dropWhile] at h
  | cons c t ih =>
    by_cases hp : p c
    · rw [List.dropWhile_cons_of_pos hp] at h ⊢
      have ht : t ≠ [] := by
        intro e; rw [e] at h; simp [List.dropWhile] at h
      rw [ih h]
      cases t with
      | nil => exact absurd rfl ht
      | cons x xs => rw [List.getLast?_cons_cons]
    · rw [List.dropWhile_cons_of_neg hp]

theorem head?_dropWhile_false (p : Char → Bool) (l : PyStr) {c : Char}
    (h : (List.dropWhile p l).head? = some c) : p c = false := by
  induction l with
  | nil => simp [List.dropWhile] at h
  | cons x t ih =>
    by_cases hp : p x
    · rw [List.dropWhile_cons_of_pos hp] at h
      exact ih h
    · rw [List.dropWhile_cons_of_neg hp] at h
      simp only [List.head?_cons, Option.some.injEq] at h
      rw [← h]
      simpa using hp

theorem dropWhile_eq_self_of_head (p : Char → Bool) (l : PyStr)
    (h : ∀ c, l.head? = some c → p c = false) : List.dropWhile p l = l := by
  cases l with
  | nil => rfl
  | cons c t =>
    have hc := h c rfl
    simp [List.dropWhile_cons, hc]

theorem pyStrip_idem (s : PyStr) : pyStrip (pyStrip s) = pyStrip s := by
  unfold pyStrip
  generalize hu : s.dropWhile pyIsSpace = u
  generalize hw : u.reverse.dropWhile pyIsSpace = w
  have h1 : w.reverse.dropWhile pyIsSpace = w.reverse := by
    apply dropWhile_eq_self_of_head
    intro c hc
    rw [List.head?_reverse] at hc
    have hwne : w ≠ [] := by
      intro e; rw [e] at hc; simp at hc
    rw [← hw] at hc hwne
    rw [dropWhile_getLast?_of_ne_nil _ _ hwne] at hc
    rw [List.getLast?_reverse] at hc
    rw [← hu] at hc
    exact head?_dropWhile_false pyIsSpace s hc
  rw [h1, List.reverse_reverse, ← hw, dropWhile_dropWhile, hw]

theorem mem_pyStrip {x : Char} {s : PyStr} (h : x ∈ pyStrip s) : x ∈ s := by
  unfold pyStrip at h
  rw [List.mem_reverse] at h
  have h2 := (List.dropWhile_sublist _).mem h
  rw [List.mem_reverse] at h2
  exact (List.dropWhile_sublist _).mem h2

theorem foldl_append_eq_flatten {α : Type} (f : α → PyStr) (l : List α) (acc : PyStr) :
    l.foldl (fun acc x => acc ++ f x) acc = acc ++ (l.map f).flatten := by
  induction l generalizing acc with
  | nil => simp
  | cons x t ih => simp [List.foldl_cons, ih, List.append_assoc]

theorem flatten_rows_getLast? (rows : List PyStr) (h : rows ≠ []) :
    ((rows.map (fun r => r ++ NEWLINE)).flatten).getLast? = some '\n' := by
  induction rows with
  | nil => exact absurd rfl h
  | cons r t ih =>
    cases t with
    | nil =>
      simp only [List.map_cons, List.map_nil, List.flatten_cons, List.flatten_nil,
        List.append_nil, NEWLINE]
      exact List.getLast?_concat r
    | cons x xs =>
      have hx := ih (by simp)
      simp only [List.map_cons, List.flatten_cons] at hx ⊢
      rw [List.getLast?_append, hx]
      rfl

theorem pySplit1_flatten_rows (rows : List PyStr) (h : ∀ r ∈ rows, '\n' ∉ r) :
    pySplit1 '\n' ((rows.map (fun r => r ++ NEWLINE)).flatten) = rows ++ [[]] := by
  induction rows with
  | nil => rfl
  | cons r t ih =>
    have hr : '\n' ∉ r := h r (List.mem_cons_self r t)
    have ht := fun x hx => h x (List.mem_cons_of_mem r hx)
    simp only [List.map_cons, List.flatten_cons]
    rw [show (r ++ NEWLINE) ++ (List.map (fun r => r ++ NEWLINE) t).flatten
        = r ++ '\n' :: (List.map (fun r => r ++ NEWLINE) t).flatten from by
      simp [NEWLINE]]
    rw [pySplit1_append _ hr, ih ht]
    rfl

theorem to_string_eq_flatten (a : Asset) :
    a.to_string = ((a.serial_nos.map (rowLine a)).map (fun r => r ++ NEWLINE)).flatten := by
  unfold Asset.to_string
  rw [foldl_append_eq_flatten (fun sn => rowLine a sn ++ NEWLINE) a.serial_nos []]
  simp only [List.map_map, List.nil_append]
  rfl

theorem not_mem_rowLine {a : Asset} {sn : PyStr} {x : Char} (hx : ¬ (x = ','))
    (hn : x ∉ a.name) (hc : x ∉ a.category) (hl : x ∉ a.location) (hd : x ∉ a.date)
    (hp : x ∉ a.price) (hm : x ∉ a.model) (hmn : x ∉ a.model_no) (hs : x ∉ sn)
    (ho : x ∉ a.order_no) (hr : x ∉ a.requestable) (hla : x ∉ a.last_audit_date) :
    x ∉ rowLine a sn := by
  simp [rowLine, COMMA, List.mem_append, hx, hn, hc, hl, hd, hp, hm, hmn, hs, ho,
    hr, hla]

theorem pySplit1_rowLine (a : Asset) (sn : PyStr)
    (hn : ',' ∉ a.name) (hc : ',' ∉ a.category) (hl : ',' ∉ a.location)
    (hd : ',' ∉ a.date) (hp : ',' ∉ a.price) (hm : ',' ∉ a.model)
    (hmn : ',' ∉ a.model_no) (hs : ',' ∉ sn) (ho : ',' ∉ a.order_no)
    (hr : ',' ∉ a.requestable) (hla : ',' ∉ a.last_audit_date) :
    pySplit1 ',' (rowLine a sn)
      = [a.name, a.category, a.location, a.date, a.price, a.model,
         a.model_no, sn, a.order_no, a.requestable, a.last_audit_date] := by
  have hshape : rowLine a sn
      = a.name ++ ',' :: (a.category ++ ',' :: (a.location ++ ',' :: (a.date ++
        ',' :: (a.price ++ ',' :: (a.model ++ ',' :: (a.model_no ++ ',' :: (sn ++
        ',' :: (a.order_no ++ ',' :: (a.requestable ++ ',' ::
        a.last_audit_date))))))))) := by
    simp [rowLine, COMMA]
  rw [hshape, pySplit1_append _ hn, pySplit1_append _ hc, pySplit1_append _ hl,
    pySplit1_append _ hd, pySplit1_append _ hp, pySplit1_append _ hm,
    pySplit1_append _ hmn, pySplit1_append _ hs, pySplit1_append _ ho,
    pySplit1_append _ hr, pySplit1_of_not_mem hla]

theorem foldl_lastMatch (name : PyStr) (l : List PyStr) (acc : Option PyStr) :
    l.foldl (fun found cat => if catMatches name cat then some cat else found) acc
      = ((l.filter (catMatches name)).getLast?).or acc := by
  induction l generalizing acc with
  | nil => simp
  | cons c t ih =>
    by_cases h : catMatches name c
    · rw [List.foldl_cons, if_pos h, ih, List.filter_cons_of_pos h]
      cases hf : List.filter (catMatches name) t with
      | nil => simp [hf, Option.or]
      | cons x xs =>
        have hsome : ((x :: xs).getLast?).isSome := by
          rw [List.getLast?_isSome]
          simp
        rcases hy : (x :: xs).getLast? with _ | y
        · rw [hy] at hsome
          simp at hsome
        · simp [hf, List.getLast?_cons_cons, hy, Option.or]
    · have hb : catMatches name c = false := by simpa using h
      rw [List.foldl_cons, if_neg h, ih, List.filter_cons_of_neg (by simp [hb])]

theorem digit_ne_slash {c : Char} (h : c.isDigit = true) : ¬ (c = '/') := by
  intro e
  rw [e] at h
  exact absurd h (by decide)

/-! Claim theorems. -/

/-- C1: evaluating the Text Segment Locator on a page that contains neither
the START anchor nor the END anchor: both anchor searches fail with `-1`,
yet the locator returns a non-empty garbage slice (characters 33 to -1 of
the page) instead of an `AnchorNotFound` failure. -/
theorem anchor_missing_silent_slice :
    pyFind NO_ANCHOR_PAGE START_STRING = -1
    ∧ pyFind NO_ANCHOR_PAGE END_STRING = -1
    ∧ parse_pdf_item NO_ANCHOR_PAGE = GARBAGE_SLICE
    ∧ ¬ (GARBAGE_SLICE = ([] : PyStr)) :=
  ⟨by decide, by decide, by decide, by decide⟩

/-- C2 counterexample: on the specification's example block the extractor
does not return the claimed fields: it discards the unit price and the
descriptive tokens by position and returns price 1000.00, model 2 and
name 2. -/
theorem multi_serial_example_refuted :
    parse_pdf_fields C2_BLOCK = Except.ok C2_ACTUAL ∧ ¬ (C2_ACTUAL = C2_CLAIMED) :=
  ⟨rfl, by decide⟩

/-- C2 amended: on the example block the extractor returns
model_no MN-100, name 2, model 2, price 1000.00 and serial numbers
SN1, SN2 — the three `pop(1)` calls remove the tokens at positions 1-3
(here: the unit price, the total price whose value becomes the price field,
and the descriptive segment), keeping token 0. -/
theorem multi_serial_example_actual :
    parse_pdf_fields C2_BLOCK = Except.ok C2_ACTUAL := rfl

/-- C3: the classification pipeline consults the model field, not the item
name.  For an item with name Dell Latitude Laptop and model ModelX, the
category check on the name would yield Laptop, yet `parse_pdf`'s call
`get_category(model_no, model, name)` classifies the model string, finds no
category, and returns the capitalized external answer instead. -/
theorem classify_uses_model_field :
    check_for_common_categories LATITUDE = some CAT_LAPTOP
    ∧ parse_pdf_category GADGET MN1 MODELX LATITUDE = pyCapitalize GADGET
    ∧ ¬ (parse_pdf_category GADGET MN1 MODELX LATITUDE = CAT_LAPTOP) :=
  ⟨by decide, by decide, by decide⟩

/-- C4 counterexample: an item block whose flattened token list has a single
element makes extraction fail with Python's `IndexError` (from
`list.pop(1)`), not with a dedicated `MalformedItemBlock` error. -/
theorem malformed_block_error_kind :
    (parse_pdf_tokens_of_item C4_ITEM).length < 3
    ∧ parse_pdf_fields C4_ITEM = Except.error PyErr.indexError
    ∧ ¬ (PyErr.indexError = PyErr.malformedItemBlock) :=
  ⟨by decide, rfl, by decide⟩

/-- C4 amended: whenever the flattened token list of an item block has fewer
than three elements, extraction fails — but with a built-in Python exception
(`IndexError` from `pop`/indexing, or `TypeError` from `reduce` on an empty
sequence), not with a dedicated `MalformedItemBlock` error. -/
theorem malformed_block_fails (item : PyStr)
    (h : (parse_pdf_tokens_of_item item).length < 3) :
    parse_pdf_fields item = Except.error PyErr.indexError
    ∨ parse_pdf_fields item = Except.error PyErr.typeError := by
  unfold parse_pdf_fields
  unfold parse_pdf_tokens_of_item at h
  rcases hsp : pySplit2 ':' ' ' item with _ | ⟨mn, _ | ⟨info0, rest2⟩⟩
  · exact Or.inl rfl
  · exact Or.inl rfl
  · rw [hsp] at h
    dsimp only at h ⊢
    by_cases hse : (parse_pdf_segs (parse_pdf_info info0)).isEmpty
    · rw [if_pos hse]
      exact Or.inr rfl
    · rw [if_neg hse]
      rcases hts : parse_pdf_tokens (parse_pdf_info info0)
        with _ | ⟨t1, _ | ⟨t2, _ | ⟨t3, tr⟩⟩⟩
      · exact Or.inl rfl
      · exact Or.inl rfl
      · exact Or.inl rfl
      · rw [hts] at h
        simp only [List.length_cons] at h
        omega

/-- C4 witness: the hypothesis of `malformed_block_fails` is satisfiable and
the theorem applies to `C4_ITEM`. -/
theorem malformed_block_fails_witness :
    (parse_pdf_tokens_of_item C4_ITEM).length < 3
    ∧ (parse_pdf_fields C4_ITEM = Except.error PyErr.indexError
       ∨ parse_pdf_fields C4_ITEM = Except.error PyErr.typeError) :=
  ⟨by decide, malformed_block_fails C4_ITEM (by decide)⟩

/-- C5 counterexample: with a name matching no known category and an empty
external answer, classification does not fail: it silently stores the empty
string as the category. -/
theorem empty_answer_accepted_refuted :
    check_for_common_categories GIZMO = none
    ∧ get_category [] MN1 GIZMO MODELX = ([] : PyStr) :=
  ⟨by decide, by decide⟩

/-- C5 amended: when no known category matches, classification never fails:
it returns the capitalized external answer unconditionally, and in
particular an empty external answer is accepted and stored as an empty
category. -/
theorem empty_answer_accepted (ext mn nm mdl : PyStr)
    (h : check_for_common_categories nm = none) :
    get_category ext mn nm mdl = pyCapitalize ext
    ∧ (ext = [] → get_category ext mn nm mdl = []) := by
  constructor
  · simp [get_category, h]
  · intro he
    simp [get_category, h, he, pyCapitalize]

/-- C5 witness: the hypothesis of `empty_answer_accepted` is satisfiable and
the theorem applies to the name `GIZMO` with the empty external answer. -/
theorem empty_answer_accepted_witness :
    get_category [] MN1 GIZMO MODELX = ([] : PyStr) :=
  (empty_answer_accepted [] MN1 GIZMO MODELX (by decide)).2 rfl

/-- C6: the classifier returns the last matching category of the fixed table
`COMMON_CATEGORIES` (Laptop, Desktop, Access Point, Smartphone, Router,
Switch): for every name, its answer is the last element of the in-order
filter of the table by the case-insensitive substring test; concretely, a
name matching both Router and Switch yields Switch. -/
theorem classify_last_match_wins :
    (∀ name : PyStr, check_for_common_categories name
        = (COMMON_CATEGORIES.filter (catMatches name)).getLast?)
    ∧ check_for_common_categories MULTI_MATCH_NAME = some CAT_SWITCH := by
  constructor
  · intro name
    rw [check_for_common_categories, foldl_lastMatch]
    cases (COMMON_CATEGORIES.filter (catMatches name)).getLast? <;> rfl
  · decide

/-- C7: for every asset whose fields and serial numbers contain no comma and
no newline, the rendered CSV text has exactly one line per serial-number
entry (duplicates included, in order, all other fields repeated verbatim),
and each line splits on commas into exactly the eleven fields in the header
order Item Name, Category, Location, Purchase Date, Purchase Cost, Model
Name, Model Number, Serial Number, Order Number, Requestable, Last Audit. -/
theorem render_rows_spec (a : Asset)
    (H : ∀ s ∈ assetFields a, ',' ∉ s ∧ '\n' ∉ s) :
    pySplitlines a.to_string = a.serial_nos.map (rowLine a)
    ∧ (pySplitlines a.to_string).length = a.serial_nos.length
    ∧ ∀ sn ∈ a.serial_nos,
        pySplit1 ',' (rowLine a sn)
          = [a.name, a.category, a.location, a.date, a.price, a.model,
             a.model_no, sn, a.order_no, a.requestable, a.last_audit_date] := by
  have Hn := H a.name (by simp [assetFields])
  have Hc := H a.category (by simp [assetFields])
  have Hl := H a.location (by simp [assetFields])
  have Hd := H a.date (by simp [assetFields])
  have Hp := H a.price (by simp [assetFields])
  have Hm := H a.model (by simp [assetFields])
  have Hmn := H a.model_no (by simp [assetFields])
  have Ho := H a.order_no (by simp [assetFields])
  have Hr := H a.requestable (by simp [assetFields])
  have Hla := H a.last_audit_date (by simp [assetFields])
  have Hserial : ∀ sn ∈ a.serial_nos, ',' ∉ sn ∧ '\n' ∉ sn := by
    intro sn hsn
    exact H sn (by simp [assetFields, hsn])
  have hnl : ∀ r ∈ a.serial_nos.map (rowLine a), '\n' ∉ r := by
    intro r hr
    rcases List.mem_map.mp hr with ⟨sn, hsn, rfl⟩
    exact not_mem_rowLine (by decide) Hn.2 Hc.2 Hl.2 Hd.2 Hp.2 Hm.2 Hmn.2
      (Hserial sn hsn).2 Ho.2 Hr.2 Hla.2
  have hrows : pySplitlines a.to_string = a.serial_nos.map (rowLine a) := by
    rw [to_string_eq_flatten]
    cases hs : a.serial_nos with
    | nil => simp [pySplitlines]
    | cons s0 st =>
      have hnl2 : ∀ r ∈ (s0 :: st).map (rowLine a), '\n' ∉ r := by
        rw [← hs]
        exact hnl
      have hlast := flatten_rows_getLast? ((s0 :: st).map (rowLine a)) (by simp)
      have hne : (((s0 :: st).map (rowLine a)).map (fun r => r ++ NEWLINE)).flatten ≠ [] := by
        intro e
        rw [e] at hlast
        simp at hlast
      unfold pySplitlines
      rw [if_neg hne, if_pos hlast, pySplit1_flatten_rows _ hnl2, List.dropLast_concat]
  refine ⟨hrows, ?_, ?_⟩
  · rw [hrows, List.length_map]
  · intro sn hsn
    exact pySplit1_rowLine a sn Hn.1 Hc.1 Hl.1 Hd.1 Hp.1 Hm.1 Hmn.1
      (Hserial sn hsn).1 Ho.1 Hr.1 Hla.1

/-- C7 witness: the hypothesis of `render_rows_spec` is satisfiable and the
theorem applies to the concrete two-serial asset `W_ASSET`. -/
theorem render_rows_spec_witness :
    pySplitlines W_ASSET.to_string = W_ASSET.serial_nos.map (rowLine W_ASSET) :=
  (render_rows_spec W_ASSET (by decide)).1

/-- C8: for every zero-padded date written with two month digits, two day
digits and four year digits separated by slashes or by dashes, the source's
date rewrite produces the corresponding YYYY-MM-DD string. -/
theorem date_normalization (m1 m2 d1 d2 y1 y2 y3 y4 sep : Char)
    (hsep : sep = '/' ∨ sep = '-')
    (h1 : m1.isDigit = true) (h2 : m2.isDigit = true)
    (h3 : d1.isDigit = true) (h4 : d2.isDigit = true)
    (h5 : y1.isDigit = true) (h6 : y2.isDigit = true)
    (h7 : y3.isDigit = true) (h8 : y4.isDigit = true) :
    parse_pdf_date [m1, m2, sep, d1, d2, sep, y1, y2, y3, y4]
      = some [y1, y2, y3, y4, '-', m1, m2, '-', d1, d2] := by
  have hm1 := digit_ne_slash h1
  have hm2 := digit_ne_slash h2
  have hd1 := digit_ne_slash h3
  have hd2 := digit_ne_slash h4
  have hy1 := digit_ne_slash h5
  have hy2 := digit_ne_slash h6
  have hy3 := digit_ne_slash h7
  have hy4 := digit_ne_slash h8
  have hdash : ¬ (('-' : Char) = '/') := by decide
  have hrep : pyReplaceChar '/' DASH [m1, m2, sep, d1, d2, sep, y1, y2, y3, y4]
      = [m1, m2, '-', d1, d2, '-', y1, y2, y3, y4] := by
    rcases hsep with h | h <;> subst h <;>
      simp [pyReplaceChar, DASH, hm1, hm2, hd1, hd2, hy1, hy2, hy3, hy4, hdash]
  unfold parse_pdf_date
  rw [hrep]
  rfl

/-- C8 witness: the hypotheses of `date_normalization` are satisfiable and
the theorem applies to the date 03/14/2024. -/
theorem date_normalization_witness : parse_pdf_date DATE_US = some DATE_ISO :=
  date_normalization '0' '3' '1' '4' '2' '0' '2' '4' '/' (Or.inl rfl)
    (by decide) (by decide) (by decide) (by decide)
    (by decide) (by decide) (by decide) (by decide)

/-- C9 counterexample: the price " 5.00 " has no thousands separator and no
currency symbol, yet it does not pass through normalization unchanged: the
surrounding whitespace is stripped. -/
theorem price_norm_unchanged_refuted :
    ¬ (',' ∈ PRICE_SPACED) ∧ ¬ ('$' ∈ PRICE_SPACED)
    ∧ normalize_price PRICE_SPACED = PRICE_CLEAN
    ∧ ¬ (PRICE_CLEAN = PRICE_SPACED) :=
  ⟨by decide, by decide, by decide, by decide⟩

/-- C9 amended: price normalization is idempotent — normalizing a normalized
string yields the same string — and a price with no thousands separator, no
currency symbol and no surrounding whitespace passes through unchanged. -/
theorem price_norm_idem :
    (∀ p : PyStr, normalize_price (normalize_price p) = normalize_price p)
    ∧ (∀ p : PyStr, ',' ∉ p → '$' ∉ p → pyStrip p = p → normalize_price p = p) := by
  have hclean : ∀ p : PyStr, ',' ∉ p → '$' ∉ p → normalize_price p = pyStrip p := by
    intro p hc hd
    unfold normalize_price
    rw [pyReplaceChar_of_not_mem _ hc, pyReplaceChar_of_not_mem _ hd]
  constructor
  · intro p
    have hnc : ',' ∉ normalize_price p := by
      intro hmem
      exact not_mem_pyReplaceChar_self ',' p
        (mem_of_mem_pyReplaceChar_empty (mem_pyStrip hmem))
    have hnd : '$' ∉ normalize_price p := by
      intro hmem
      exact not_mem_pyReplaceChar_self '$' (pyReplaceChar ',' [] p) (mem_pyStrip hmem)
    rw [hclean _ hnc hnd]
    unfold normalize_price
    exact pyStrip_idem _
  · intro p hc hd hstrip
    rw [hclean p hc hd, hstrip]

/-- C9 witness: the hypotheses of the second part of `price_norm_idem` are
satisfiable and the theorem applies to the clean price 5.00. -/
theorem price_norm_idem_witness : normalize_price PRICE_CLEAN = PRICE_CLEAN :=
  price_norm_idem.2 PRICE_CLEAN (by decide) (by decide) (by decide)

/-- C10: when no known category matches, the stored category is the external
answer with its first character uppercased and every remaining character
lowercased, exactly Python `str.capitalize`. -/
theorem external_answer_capitalized (ext mn nm mdl : PyStr) (c : Char) (t : PyStr)
    (hmatch : check_for_common_categories nm = none) (hext : ext = c :: t) :
    get_category ext mn nm mdl = Char.toUpper c :: t.map Char.toLower := by
  subst hext
  simp [get_category, hmatch, pyCapitalize, pyLower]

/-- C10 witness: the hypotheses of `external_answer_capitalized` are
satisfiable and the theorem applies to the answer MacBook Pro, which is
stored as Macbook pro. -/
theorem external_answer_capitalized_witness :
    get_category MACBOOK MN1 GIZMO MODELX = CAPITALIZED_MACBOOK := by
  rw [external_answer_capitalized MACBOOK MN1 GIZMO MODELX 'M' MACBOOK_TAIL
    (by decide) rfl]
  decide
